import Mathlib

/-!
Shallow embedding of two modules of the edx-platform repository:

* `lms/djangoapps/course_home_api/utils.py`
  (`get_microfrontend_url`, `is_request_from_learning_mfe`)
* `openedx/features/personalized_learner_schedules/call_to_action.py`
  (`PersonalizedLearnerScheduleCallToAction.get_ctas`,
   `_is_block_shiftable`, `_log_past_due_warning`,
   `_make_reset_deadlines_cta`)

External collaborators (Django `settings`, `crum.get_current_request`,
`django.urls.reverse`, the mobile-app request classifier) are passed in
explicitly as parameters or carried on the request value.  Duck-typed
optional attributes of an xblock (`is_past_due`, `attempts`,
`max_attempts`) become `Option` fields, so a `hasattr` check becomes a
match on the option.  Logging becomes an explicit list of emitted
messages, and the process-wide `past_due_class_warnings` set becomes an
explicitly threaded list of warned type names.
-/

namespace EdxPlatform

/-- Embedding of Python `str.startswith`: the second string is a prefix of
the first, compared on the underlying character sequences.  In particular
`py_startswith s ""` is `true` for every `s`, exactly as in Python. -/
def py_startswith (s pre : String) : Bool :=
  pre.data.isPrefixOf s.data

/-- An HTTP-style request as this code observes it: the optional
`HTTP_REFERER` entry of `META`, plus the mobile-app origin classification
delivered by the external collaborator `is_request_from_mobile_app`
(from `openedx.core.lib.mobile_utils`, outside the sources). -/
structure Request where
  http_referer : Option String
  from_mobile_app : Bool
deriving DecidableEq

/-- Modelled from the spec: the mobile-app origin classification is
"delegated to an external collaborator" (`openedx.core.lib.mobile_utils`,
not among the sources); we represent its verdict as a bit carried on the
request. -/
def is_request_from_mobile_app (request : Request) : Bool :=
  request.from_mobile_app

/-- `is_request_from_learning_mfe` from `course_home_api/utils.py`:
`request.META.get('HTTP_REFERER', '').startswith(settings.LEARNING_MICROFRONTEND_URL)`.
The configured setting is passed explicitly. -/
def is_request_from_learning_mfe (learning_microfrontend_url : String)
    (request : Request) : Bool :=
  py_startswith (request.http_referer.getD "") learning_microfrontend_url

/-- `get_microfrontend_url` from `course_home_api/utils.py`.  The Python
`if view_name:` test is truthiness: both `None` and the empty string skip
the suffix.  `settings.LEARNING_MICROFRONTEND_URL` is passed explicitly. -/
def get_microfrontend_url (learning_microfrontend_url : String)
    (course_key : String) (view_name : Option String) : String :=
  let mfe_link := learning_microfrontend_url ++ "/course/" ++ course_key
  match view_name with
  | some v => if v = "" then mfe_link else mfe_link ++ "/" ++ v
  | none => mfe_link

/-- The two shapes the duck-typed `is_past_due` attribute can take: a
zero-argument callable, or a plain (non-callable) property.  Either way
it yields a boolean. -/
inductive PastDueShape where
  | callable (value : Bool)
  | property (value : Bool)
deriving DecidableEq

/-- An xblock as `call_to_action.py` observes it: the optional
`is_past_due` capability (callable or property), the optional
`attempts` / `max_attempts` pair (`max_attempts` itself may be `None`
even when present), the `self_paced` flag, the owning course identifier
`scope_ids.usage_id.context_key`, the runtime type name
`type(xblock).__name__`, and the children returned by
`get_display_items()` for container blocks. -/
inductive XBlock where
  | mk (is_past_due : Option PastDueShape)
       (attempts : Option Nat)
       (max_attempts : Option (Option Nat))
       (self_paced : Bool)
       (context_key : String)
       (type_name : String)
       (display_items : List XBlock)

def XBlock.is_past_due : XBlock → Option PastDueShape
  | .mk p _ _ _ _ _ _ => p

def XBlock.attempts : XBlock → Option Nat
  | .mk _ a _ _ _ _ _ => a

def XBlock.max_attempts : XBlock → Option (Option Nat)
  | .mk _ _ m _ _ _ _ => m

def XBlock.self_paced : XBlock → Bool
  | .mk _ _ _ sp _ _ _ => sp

def XBlock.context_key : XBlock → String
  | .mk _ _ _ _ ck _ _ => ck

def XBlock.type_name : XBlock → String
  | .mk _ _ _ _ _ tn _ => tn

def XBlock.get_display_items : XBlock → List XBlock
  | .mk _ _ _ _ _ _ items => items

/-- A returned call-to-action descriptor: the dictionary with keys
`link`, `link_name`, `form_values` (whose single entry is `course_id`)
and `description`. -/
structure CTADescriptor where
  link : String
  link_name : String
  form_values_course_id : String
  description : String
deriving DecidableEq

/-- Class constant `CAPA_SUBMIT_DISABLED`. -/
def CAPA_SUBMIT_DISABLED : String := "capa_submit_disabled"

/-- Class constant `VERTICAL_BANNER`. -/
def VERTICAL_BANNER : String := "vertical_banner"

/-- The message logged by `_log_past_due_warning`, with the `%s`
placeholder substituted. -/
def past_due_warning_message (name : String) : String :=
  "PersonalizedLearnerScheduleCallToAction has encountered an xblock that defines is_past_due as a property. This is supported for now, but may not be in the future. Please change " ++ name ++ ".is_past_due into a method."

/-- `_log_past_due_warning`: if the type name is already in the
process-wide `past_due_class_warnings` set, do nothing; otherwise emit
the warning and record the name.  The global set is threaded explicitly;
the result is the new set together with the messages emitted. -/
def _log_past_due_warning (name : String) (past_due_class_warnings : List String) :
    List String × List String :=
  if name ∈ past_due_class_warnings then (past_due_class_warnings, [])
  else (name :: past_due_class_warnings, [past_due_warning_message name])

/-- The attempt gate inside `_is_block_shiftable`: when both `attempts`
and `max_attempts` are present, `can_attempt` is
`max_attempts is None or attempts < max_attempts`; when either attribute
is absent, `can_attempt` is `True`. -/
def can_attempt (xblock : XBlock) : Bool :=
  match xblock.attempts, xblock.max_attempts with
  | some attempts, some maxAttempts =>
    match maxAttempts with
    | none => true
    | some m => decide (attempts < m)
  | _, _ => true

/-- `_is_block_shiftable`, result only (the logging side effect never
influences the returned boolean; see `_is_block_shiftable_st` for the
instrumented version).  Without the `is_past_due` capability the result
is `False`; otherwise it is
`xblock.self_paced and can_attempt and is_past_due`, where `is_past_due`
is the callable invoked or the property read. -/
def _is_block_shiftable (xblock : XBlock) : Bool :=
  match xblock.is_past_due with
  | none => false
  | some shape =>
    let is_past_due :=
      match shape with
      | .callable b => b
      | .property b => b
    xblock.self_paced && can_attempt xblock && is_past_due

/-- `_is_block_shiftable` with the global warning state and the log
output made explicit: returns the boolean result, the new
`past_due_class_warnings` set, and the warnings emitted.  When
`is_past_due` is a non-callable property, `_log_past_due_warning` runs
on `type(xblock).__name__` before the result is computed. -/
def _is_block_shiftable_st (xblock : XBlock) (past_due_class_warnings : List String) :
    Bool × List String × List String :=
  match xblock.is_past_due with
  | none => (false, past_due_class_warnings, [])
  | some shape =>
    match shape with
    | .callable b =>
      (xblock.self_paced && can_attempt xblock && b, past_due_class_warnings, [])
    | .property b =>
      let logged := _log_past_due_warning xblock.type_name past_due_class_warnings
      (xblock.self_paced && can_attempt xblock && b, logged.1, logged.2)

/-- `_make_reset_deadlines_cta`: the `reverse(RESET_COURSE_DEADLINES_NAME)`
route is resolved by an external collaborator and passed in; the gettext
calls are identities here. -/
def _make_reset_deadlines_cta (reset_course_deadlines_link : String)
    (xblock : XBlock) : CTADescriptor :=
  { link := reset_course_deadlines_link
    link_name := "Shift due dates"
    form_values_course_id := xblock.context_key
    description := "To participate in this assignment, the suggested schedule for your course needs updating. Don’t worry, we’ll shift all the due dates for you and you won’t lose any of your progress." }

/-- The ambient environment of `get_ctas`: the current request as
returned by `crum.get_current_request` (possibly `None`), the configured
`LEARNING_MICROFRONTEND_URL`, and the resolved reset-deadlines route. -/
structure Ctx where
  request : Option Request
  learning_microfrontend_url : String
  reset_course_deadlines_link : String
deriving DecidableEq

/-- The suppression gate of `get_ctas`:
`is_mobile_app or is_learning_mfe`, where each flag is `False` when the
current request is `None` (Python `request and f(request)`). -/
def is_suppressed (ctx : Ctx) : Bool :=
  (match ctx.request with
   | some r => is_request_from_mobile_app r
   | none => false) ||
  (match ctx.request with
   | some r => is_request_from_learning_mfe ctx.learning_microfrontend_url r
   | none => false)

/-- `get_ctas`: suppression gate first, then the per-category logic.
`CAPA_SUBMIT_DISABLED` consults `_is_block_shiftable` on the block
itself; `VERTICAL_BANNER` consults it on each of
`xblock.get_display_items()`; any other category yields `[]`. -/
def get_ctas (ctx : Ctx) (xblock : XBlock) (category : String) :
    List CTADescriptor :=
  if is_suppressed ctx then []
  else if category = CAPA_SUBMIT_DISABLED then
    if _is_block_shiftable xblock then
      [_make_reset_deadlines_cta ctx.reset_course_deadlines_link xblock]
    else []
  else if category = VERTICAL_BANNER then
    if xblock.get_display_items.any _is_block_shiftable then
      [_make_reset_deadlines_cta ctx.reset_course_deadlines_link xblock]
    else []
  else []

/-! ### Sample concrete values used by witnesses -/

/-- A request classified as coming from the mobile app. -/
def mobileRequest : Request :=
  { http_referer := none, from_mobile_app := true }

/-- A request whose referrer points at the learning MFE. -/
def mfeRequest : Request :=
  { http_referer := some "https://mfe.example/course/x", from_mobile_app := false }

/-- A browser request: no mobile classification, unrelated referrer. -/
def browserRequest : Request :=
  { http_referer := some "https://other.example/page", from_mobile_app := false }

/-- An environment around a given current request. -/
def sampleCtx (r : Option Request) : Ctx :=
  { request := r
    learning_microfrontend_url := "https://mfe.example"
    reset_course_deadlines_link := "/dates/reset" }

/-- A self-paced, past-due problem block with unlimited attempts. -/
def shiftableBlock : XBlock :=
  .mk (some (.callable true)) none none true "course-v1:X+Y+Z" "ProblemBlock" []

/-- A block without the `is_past_due` capability. -/
def plainBlock : XBlock :=
  .mk none none none true "course-v1:X+Y+Z" "HtmlBlock" []

/-- A past-due problem block whose attempts are exhausted. -/
def exhaustedBlock : XBlock :=
  .mk (some (.callable true)) (some 2) (some (some 2)) true "course-v1:X+Y+Z" "ProblemBlock" []

/-- A vertical container with one non-shiftable and two shiftable children. -/
def verticalBlock : XBlock :=
  .mk none none none true "course-v1:X+Y+Z" "VerticalBlock"
    [plainBlock, shiftableBlock, shiftableBlock]

/-- A block exposing `is_past_due` as a non-callable property. -/
def propertyBlock : XBlock :=
  .mk (some (.property true)) none none true "course-v1:X+Y+Z" "LegacyBlock" []

/-- A second, distinct instance of the same legacy type. -/
def propertyBlock2 : XBlock :=
  .mk (some (.property false)) (some 0) (some none) false "course-v1:A+B+C" "LegacyBlock" []

/-! ### Claims -/

/-- C1: for every xblock and every category, if the current request
context is classified as mobile-app or learning-MFE origin, `get_ctas`
returns the empty list, regardless of the category and of the xblock. -/
theorem get_ctas_suppressed_empty (ctx : Ctx) (xblock : XBlock)
    (category : String) (h : is_suppressed ctx = true) :
    get_ctas ctx xblock category = [] := by
  simp [get_ctas, h]

/-- Witness for C1: a mobile-app request suppresses the CTA even for a
shiftable block; a learning-MFE referrer does too. -/
theorem get_ctas_suppressed_empty_witness :
    (is_suppressed (sampleCtx (some mobileRequest)) = true ∧
      get_ctas (sampleCtx (some mobileRequest)) shiftableBlock CAPA_SUBMIT_DISABLED = []) ∧
    (is_suppressed (sampleCtx (some mfeRequest)) = true ∧
      get_ctas (sampleCtx (some mfeRequest)) shiftableBlock CAPA_SUBMIT_DISABLED = []) :=
  ⟨⟨by decide, get_ctas_suppressed_empty _ _ _ (by decide)⟩,
   ⟨by decide, get_ctas_suppressed_empty _ _ _ (by decide)⟩⟩

/-- C2: a component lacking the past-due capability makes
`_is_block_shiftable` return `false`; no exception is modelled because
the embedded functions are total by construction, mirroring the
`hasattr` guards of the source. -/
theorem shiftable_false_without_past_due (xblock : XBlock)
    (h : xblock.is_past_due = none) : _is_block_shiftable xblock = false := by
  simp [_is_block_shiftable, h]

/-- Witness for C2: a block with no `is_past_due` attribute is not
shiftable. -/
theorem shiftable_false_without_past_due_witness :
    plainBlock.is_past_due = none ∧ _is_block_shiftable plainBlock = false :=
  ⟨rfl, shiftable_false_without_past_due plainBlock rfl⟩

/-- C3: for a non-suppressed request, `get_ctas` on the vertical-banner
category returns the single reset-deadlines CTA built for the container
itself exactly when some enumerated display item is shiftable, and `[]`
otherwise; the result never has more than one element. -/
theorem get_ctas_vertical_banner (ctx : Ctx) (xblock : XBlock)
    (h : is_suppressed ctx = false) :
    get_ctas ctx xblock VERTICAL_BANNER =
      (if xblock.get_display_items.any _is_block_shiftable then
        [_make_reset_deadlines_cta ctx.reset_course_deadlines_link xblock]
      else []) ∧
    (get_ctas ctx xblock VERTICAL_BANNER).length ≤ 1 := by
  have hne : VERTICAL_BANNER ≠ CAPA_SUBMIT_DISABLED := by decide
  have heq : get_ctas ctx xblock VERTICAL_BANNER =
      (if xblock.get_display_items.any _is_block_shiftable then
        [_make_reset_deadlines_cta ctx.reset_course_deadlines_link xblock]
      else []) := by
    simp [get_ctas, h, hne]
  refine ⟨heq, ?_⟩
  rw [heq]
  split <;> simp

/-- Witness for C3: with no current request, the vertical with shiftable
children yields exactly the container's CTA (carrying the container's
course id), and a vertical with no shiftable child yields `[]`. -/
theorem get_ctas_vertical_banner_witness :
    is_suppressed (sampleCtx none) = false ∧
    get_ctas (sampleCtx none) verticalBlock VERTICAL_BANNER =
      (if verticalBlock.get_display_items.any _is_block_shiftable then
        [_make_reset_deadlines_cta (sampleCtx none).reset_course_deadlines_link verticalBlock]
      else []) ∧
    (get_ctas (sampleCtx none) verticalBlock VERTICAL_BANNER).length ≤ 1 :=
  ⟨by decide,
   (get_ctas_vertical_banner (sampleCtx none) verticalBlock (by decide)).1,
   (get_ctas_vertical_banner (sampleCtx none) verticalBlock (by decide)).2⟩

/-- C4: for a non-suppressed request, `get_ctas` on the submit-disabled
category returns the single reset-deadlines CTA exactly when
`_is_block_shiftable` holds of the block, else `[]`; any category other
than the two recognized ones yields `[]`. -/
theorem get_ctas_submit_disabled (ctx : Ctx) (xblock : XBlock)
    (category : String) (h : is_suppressed ctx = false) :
    get_ctas ctx xblock CAPA_SUBMIT_DISABLED =
      (if _is_block_shiftable xblock then
        [_make_reset_deadlines_cta ctx.reset_course_deadlines_link xblock]
      else []) ∧
    (category ≠ CAPA_SUBMIT_DISABLED → category ≠ VERTICAL_BANNER →
      get_ctas ctx xblock category = []) := by
  constructor
  · simp [get_ctas, h]
  · intro h1 h2
    simp [get_ctas, h, h1, h2]

/-- Witness for C4: with no current request, a shiftable problem block
gets exactly its CTA under the submit-disabled category, and an
unrecognized category yields `[]`. -/
theorem get_ctas_submit_disabled_witness :
    is_suppressed (sampleCtx none) = false ∧
    get_ctas (sampleCtx none) shiftableBlock CAPA_SUBMIT_DISABLED =
      (if _is_block_shiftable shiftableBlock then
        [_make_reset_deadlines_cta (sampleCtx none).reset_course_deadlines_link shiftableBlock]
      else []) ∧
    ("other_category" ≠ CAPA_SUBMIT_DISABLED ∧ "other_category" ≠ VERTICAL_BANNER ∧
      get_ctas (sampleCtx none) shiftableBlock "other_category" = []) :=
  ⟨by decide,
   (get_ctas_submit_disabled (sampleCtx none) shiftableBlock "other_category" (by decide)).1,
   by decide, by decide,
   (get_ctas_submit_disabled (sampleCtx none) shiftableBlock "other_category"
      (by decide)).2 (by decide) (by decide)⟩

/-- C5: the attempt gate is `true` when the attempt-limit capability is
absent (either attribute missing), when `max_attempts` is `None`, or
when `attempts < max_attempts`; and whenever `attempts >= max_attempts`
with `max_attempts` set, `_is_block_shiftable` is `false` regardless of
pacing and past-due status. -/
theorem attempt_gate (xblock : XBlock) :
    ((xblock.attempts = none ∨ xblock.max_attempts = none ∨
      xblock.max_attempts = some none ∨
      (∃ a m, xblock.attempts = some a ∧ xblock.max_attempts = some (some m) ∧ a < m)) →
      can_attempt xblock = true) ∧
    (∀ a m, xblock.attempts = some a → xblock.max_attempts = some (some m) →
      m ≤ a → _is_block_shiftable xblock = false) := by
  cases xblock with
  | mk p att maxa sp ck tn items =>
    constructor
    · rintro (h | h | h | ⟨a, m, ha, hm, hlt⟩) <;>
        cases att <;>
        simp_all [can_attempt, XBlock.attempts, XBlock.max_attempts]
    · intro a m ha hm hle
      simp only [XBlock.attempts] at ha
      simp only [XBlock.max_attempts] at hm
      subst ha; subst hm
      have hlt : ¬ a < m := by omega
      cases p with
      | none => simp [_is_block_shiftable, XBlock.is_past_due]
      | some shape =>
        cases shape <;>
          simp [_is_block_shiftable, XBlock.is_past_due, can_attempt,
                XBlock.attempts, XBlock.max_attempts, XBlock.self_paced, hlt]

/-- Witness for C5: a block with unlimited attempts passes the gate, and
a self-paced past-due block with exhausted attempts is not shiftable. -/
theorem attempt_gate_witness :
    can_attempt shiftableBlock = true ∧
    (exhaustedBlock.attempts = some 2 ∧
      exhaustedBlock.max_attempts = some (some 2) ∧
      _is_block_shiftable exhaustedBlock = false) :=
  ⟨(attempt_gate shiftableBlock).1 (Or.inl rfl),
   rfl, rfl,
   (attempt_gate exhaustedBlock).2 2 2 rfl rfl (by decide)⟩

/-- Whatever the block and the starting warning state, evaluating the
instrumented predicate only ever grows the warned-types set: every name
already recorded is still recorded afterwards. -/
theorem shiftable_st_warned_mono (xb : XBlock) (s : List String) (n : String)
    (hn : n ∈ s) : n ∈ (_is_block_shiftable_st xb s).2.1 := by
  cases xb with
  | mk p att maxa sp ck tn items =>
    cases p with
    | none => simpa [_is_block_shiftable_st, XBlock.is_past_due]
    | some shape =>
      cases shape with
      | callable b => simpa [_is_block_shiftable_st, XBlock.is_past_due]
      | property b =>
        by_cases hmem : tn ∈ s <;>
          simp [_is_block_shiftable_st, _log_past_due_warning, XBlock.is_past_due,
                XBlock.type_name, hmem, hn]

/-- C6: for a block exposing the past-due capability, the callable and
the property shape of `is_past_due` compute the same boolean, equal to
`self_paced && can_attempt && is_past_due`; the property shape differs
only in emitting the one-time warning, and the callable shape emits
nothing. -/
theorem past_due_shape_irrelevant (att : Option Nat) (maxa : Option (Option Nat))
    (sp : Bool) (ck tn : String) (items : List XBlock) (b : Bool)
    (warned : List String) :
    (_is_block_shiftable_st (.mk (some (.callable b)) att maxa sp ck tn items) warned).1 =
      (_is_block_shiftable_st (.mk (some (.property b)) att maxa sp ck tn items) warned).1 ∧
    _is_block_shiftable (.mk (some (.callable b)) att maxa sp ck tn items) =
      _is_block_shiftable (.mk (some (.property b)) att maxa sp ck tn items) ∧
    _is_block_shiftable (.mk (some (.callable b)) att maxa sp ck tn items) =
      (sp && can_attempt (.mk (some (.callable b)) att maxa sp ck tn items) && b) ∧
    (_is_block_shiftable_st (.mk (some (.property b)) att maxa sp ck tn items) warned).1 =
      _is_block_shiftable (.mk (some (.property b)) att maxa sp ck tn items) ∧
    (_is_block_shiftable_st (.mk (some (.property b)) att maxa sp ck tn items) warned).2.2 =
      (_log_past_due_warning tn warned).2 ∧
    (_is_block_shiftable_st (.mk (some (.callable b)) att maxa sp ck tn items) warned).2.2 =
      [] :=
  ⟨rfl, rfl, rfl, rfl, rfl, rfl⟩

/-- C7: when `is_past_due` is a non-callable property on two instances
of the same type and the type is not yet recorded, the first evaluation
emits exactly the deprecation warning and the second emits nothing; the
warned-types set only grows (nothing already recorded is ever removed). -/
theorem past_due_warning_once (xb1 xb2 : XBlock) (warned : List String)
    (b1 b2 : Bool)
    (h1 : xb1.is_past_due = some (.property b1))
    (h2 : xb2.is_past_due = some (.property b2))
    (hty : xb2.type_name = xb1.type_name)
    (hnew : xb1.type_name ∉ warned) :
    (_is_block_shiftable_st xb1 warned).2.2 =
      [past_due_warning_message xb1.type_name] ∧
    (_is_block_shiftable_st xb2 (_is_block_shiftable_st xb1 warned).2.1).2.2 = [] ∧
    (∀ n, n ∈ warned → n ∈ (_is_block_shiftable_st xb1 warned).2.1) ∧
    (∀ xb s n, n ∈ s → n ∈ (_is_block_shiftable_st xb s).2.1) := by
  cases xb1 with
  | mk p1 att1 maxa1 sp1 ck1 tn1 items1 =>
    cases xb2 with
    | mk p2 att2 maxa2 sp2 ck2 tn2 items2 =>
      simp only [XBlock.is_past_due] at h1 h2
      simp only [XBlock.type_name] at hty hnew ⊢
      subst h1; subst h2; subst hty
      refine ⟨?_, ?_, ?_, ?_⟩
      · simp [_is_block_shiftable_st, _log_past_due_warning, XBlock.is_past_due,
              XBlock.type_name, hnew]
      · simp [_is_block_shiftable_st, _log_past_due_warning, XBlock.is_past_due,
              XBlock.type_name, hnew]
      · intro n hn
        exact shiftable_st_warned_mono _ _ _ hn
      · intro xb s n hn
        exact shiftable_st_warned_mono xb s n hn

/-- Witness for C7: two distinct `LegacyBlock` instances, starting from
an empty warned set: one warning after the first call, none after the
second. -/
theorem past_due_warning_once_witness :
    propertyBlock.is_past_due = some (.property true) ∧
    propertyBlock2.is_past_due = some (.property false) ∧
    propertyBlock2.type_name = propertyBlock.type_name ∧
    propertyBlock.type_name ∉ ([] : List String) ∧
    (_is_block_shiftable_st propertyBlock []).2.2 =
      [past_due_warning_message propertyBlock.type_name] ∧
    (_is_block_shiftable_st propertyBlock2
      (_is_block_shiftable_st propertyBlock []).2.1).2.2 = [] := by
  refine ⟨rfl, rfl, rfl, by simp, ?_, ?_⟩
  · exact (past_due_warning_once propertyBlock propertyBlock2 [] true false
      rfl rfl rfl (by simp)).1
  · exact (past_due_warning_once propertyBlock propertyBlock2 [] true false
      rfl rfl rfl (by simp)).2.1

/-- The empty string starts with a string exactly when that string is
itself empty. -/
theorem py_startswith_empty_left (base : String) (h : base ≠ "") :
    py_startswith "" base = false := by
  unfold py_startswith
  have hd : ("" : String).data = ([] : List Char) := rfl
  rw [hd]
  cases hb : base.data with
  | nil =>
    exact absurd (String.ext (hb.trans rfl)) h
  | cons c cs => rfl

/-- Counterexample for C8: the claim promises `false` whenever the
referrer header is absent, for every configured base URL; but with the
base URL empty and no referrer, the function returns `true` (the empty
string starts with the empty string). -/
theorem mfe_check_absent_referrer_cex :
    ({ http_referer := none, from_mobile_app := false } : Request).http_referer = none ∧
    is_request_from_learning_mfe ""
      { http_referer := none, from_mobile_app := false } = true :=
  ⟨rfl, by decide⟩

/-- C8 amended: with a present referrer the result is exactly whether
the referrer value starts with the base URL; with the referrer absent
the empty string is tested instead, so the result is `false` for every
non-empty base URL (and `true` only for the empty base URL). -/
theorem is_request_from_learning_mfe_spec (base : String) (request : Request) :
    (∀ ref, request.http_referer = some ref →
      is_request_from_learning_mfe base request = py_startswith ref base) ∧
    (request.http_referer = none →
      is_request_from_learning_mfe base request = py_startswith "" base) ∧
    (request.http_referer = none → base ≠ "" →
      is_request_from_learning_mfe base request = false) := by
  refine ⟨?_, ?_, ?_⟩
  · intro ref href
    simp [is_request_from_learning_mfe, href]
  · intro href
    simp [is_request_from_learning_mfe, href]
  · intro href hbase
    simp [is_request_from_learning_mfe, href]
    exact py_startswith_empty_left base hbase

/-- Witness for C8's amended statement: a present MFE referrer matches
its base URL, and an absent referrer with the non-empty base URL yields
`false`. -/
theorem is_request_from_learning_mfe_spec_witness :
    (mfeRequest.http_referer = some "https://mfe.example/course/x" ∧
      is_request_from_learning_mfe "https://mfe.example" mfeRequest =
        py_startswith "https://mfe.example/course/x" "https://mfe.example") ∧
    (mobileRequest.http_referer = none ∧ ("https://mfe.example" : String) ≠ "" ∧
      is_request_from_learning_mfe "https://mfe.example" mobileRequest = false) :=
  ⟨⟨rfl, (is_request_from_learning_mfe_spec "https://mfe.example" mfeRequest).1
      "https://mfe.example/course/x" rfl⟩,
   ⟨rfl, by decide,
    (is_request_from_learning_mfe_spec "https://mfe.example" mobileRequest).2.2
      rfl (by decide)⟩⟩

/-- Counterexample for C9: the claim appends `"/" + view_name` whenever
a view name is provided, but the code tests Python truthiness, so the
provided empty view name is not appended. -/
theorem get_microfrontend_url_empty_view_cex :
    get_microfrontend_url "https://mfe.example" "course-v1:X+Y+Z" (some "") =
      "https://mfe.example/course/course-v1:X+Y+Z" ∧
    get_microfrontend_url "https://mfe.example" "course-v1:X+Y+Z" (some "") ≠
      "https://mfe.example" ++ "/course/" ++ "course-v1:X+Y+Z" ++ "/" ++ "" := by
  constructor <;> decide

/-- C9 amended: the result is `base_url ++ "/course/" ++ course_id`,
with `"/" ++ view_name` appended exactly when a non-empty view name is
provided (a provided empty view name is ignored, as is `none`); the
spec's two concrete examples hold. -/
theorem get_microfrontend_url_spec (base course_key v : String) :
    get_microfrontend_url base course_key none = base ++ "/course/" ++ course_key ∧
    (v ≠ "" → get_microfrontend_url base course_key (some v) =
      base ++ "/course/" ++ course_key ++ "/" ++ v) ∧
    get_microfrontend_url base course_key (some "") =
      base ++ "/course/" ++ course_key ∧
    get_microfrontend_url "https://mfe.example" "course-v1:X+Y+Z" none =
      "https://mfe.example/course/course-v1:X+Y+Z" ∧
    get_microfrontend_url "https://mfe.example" "course-v1:X+Y+Z" (some "progress") =
      "https://mfe.example/course/course-v1:X+Y+Z/progress" := by
  refine ⟨rfl, ?_, by simp [get_microfrontend_url], by decide, by decide⟩
  intro hv
  simp [get_microfrontend_url, hv]

/-- Witness for C9's amended statement: the non-empty view name
"progress" really is appended. -/
theorem get_microfrontend_url_spec_witness :
    ("progress" : String) ≠ "" ∧
    get_microfrontend_url "https://mfe.example" "course-v1:X+Y+Z" (some "progress") =
      "https://mfe.example" ++ "/course/" ++ "course-v1:X+Y+Z" ++ "/" ++ "progress" :=
  ⟨by decide,
   (get_microfrontend_url_spec "https://mfe.example" "course-v1:X+Y+Z" "progress").2.1
     (by decide)⟩

/-- C10: with no ambient request (the current-request lookup yields
`None`), neither suppression flag fires; `get_ctas` runs the
per-category logic unchanged and can return a non-empty list. -/
theorem get_ctas_no_request (ctx : Ctx) (xblock : XBlock) (category : String)
    (h : ctx.request = none) :
    is_suppressed ctx = false ∧
    get_ctas ctx xblock category =
      (if category = CAPA_SUBMIT_DISABLED then
        (if _is_block_shiftable xblock then
          [_make_reset_deadlines_cta ctx.reset_course_deadlines_link xblock]
        else [])
      else if category = VERTICAL_BANNER then
        (if xblock.get_display_items.any _is_block_shiftable then
          [_make_reset_deadlines_cta ctx.reset_course_deadlines_link xblock]
        else [])
      else []) ∧
    (∃ xb cat, get_ctas ctx xb cat ≠ []) := by
  have hs : is_suppressed ctx = false := by simp [is_suppressed, h]
  refine ⟨hs, by simp [get_ctas, hs], ⟨shiftableBlock, CAPA_SUBMIT_DISABLED, ?_⟩⟩
  have hshift : _is_block_shiftable shiftableBlock = true := by decide
  simp [get_ctas, hs, hshift]

/-- Witness for C10: a context whose current request is `None` is not
suppressed and admits a non-empty result. -/
theorem get_ctas_no_request_witness :
    (sampleCtx none).request = none ∧
    is_suppressed (sampleCtx none) = false ∧
    (∃ xb cat, get_ctas (sampleCtx none) xb cat ≠ []) :=
  ⟨rfl,
   (get_ctas_no_request (sampleCtx none) plainBlock "other" rfl).1,
   (get_ctas_no_request (sampleCtx none) plainBlock "other" rfl).2.2⟩

end EdxPlatform
